import Mathlib

/-!
Shallow embedding (in Lean 4) of the SQLite-backed persistence core of
`OWUI_DXMatrix_Edition/backend/database.py`.

Modelling conventions:
* Time is an integer (`Int`); `datetime.now()` becomes an explicit `now`
  parameter.  Within one operation all `datetime.now()` calls are modelled
  by the same `now` (they are microseconds apart in the source).
* Each table is an association list from its primary key to a row record;
  reachable states have pairwise distinct keys (`DB.WF`).
* JSON payload values are modelled by `PyVal`; `PyVal.obj` stands for a
  Python value that `json.dumps` cannot serialize (it raises `TypeError`,
  which the source catches, returning the failure value).  `json.dumps` /
  `json.loads` are mutually inverse on serializable values, so the stored
  TEXT column is represented by the value itself.
* SQL three-valued logic on the nullable `expires_at` column:
  `expires_at > now` is false when NULL (`liveAt` handles NULL separately,
  mirroring the explicit `expires_at IS NULL OR expires_at > ?`), and
  `expires_at < now` in the sweeper is false when NULL (`sqlExpired`).
* `LIKE` patterns (used by `clear_cache`) are modelled by `likeMatch`,
  implementing SQLite's default `LIKE`: `%` matches any sequence, `_`
  matches any single character, and ASCII letters compare
  case-insensitively.
-/

namespace DXMatrix

/-- A Python value crossing the store boundary.  `obj` is any value that is
not JSON-serializable (e.g. a set or a custom class instance). -/
inductive PyVal where
  | null
  | bool (b : Bool)
  | int (n : Int)
  | str (s : String)
  | obj (id : Nat)
deriving DecidableEq, Repr

/-- Predicate for values `json.dumps` accepts; on `obj` it raises exactly on serializable values; on `obj` it raises
`TypeError` (modelled by the callers checking this flag). -/
def serializable : PyVal → Bool
  | PyVal.obj _ => false
  | _ => true

/-- A session `data` payload is a Python dict with string keys. -/
def serializableDict (d : List (String × PyVal)) : Bool :=
  d.all (fun kv => serializable kv.2)

/-- Row of the `sessions` table (`database.py`, `_init_database`). -/
structure SessionRow where
  userId : String
  data : List (String × PyVal)
  createdAt : Int
  updatedAt : Int
  expiresAt : Option Int
deriving DecidableEq, Repr

/-- Row of the `cache` table. -/
structure CacheRow where
  value : PyVal
  createdAt : Int
  expiresAt : Option Int
  accessCount : Int
  lastAccessed : Int
deriving DecidableEq, Repr

/-- Row of the `settings` table. -/
structure SettingRow where
  value : PyVal
  description : Option String
  updatedAt : Int
deriving DecidableEq, Repr

/-- The database state: the three tables the claims are about (the `users`
and `chats` tables are untouched by every operation modelled here). -/
structure DB where
  sessions : List (String × SessionRow)
  cache : List (String × CacheRow)
  settings : List (String × SettingRow)
deriving DecidableEq, Repr

def DB.empty : DB := ⟨[], [], []⟩

/-- Keys of every table are pairwise distinct — the invariant a SQL PRIMARY
KEY maintains; every reachable state satisfies it. -/
def DB.WF (db : DB) : Prop :=
  (db.sessions.map Prod.fst).Nodup ∧ (db.cache.map Prod.fst).Nodup ∧
    (db.settings.map Prod.fst).Nodup

instance (db : DB) : Decidable db.WF := by
  unfold DB.WF; infer_instance

/-- First-match lookup in an association list (a `SELECT ... WHERE pk = ?`). -/
def assocFind {α : Type} (l : List (String × α)) (k : String) : Option α :=
  match l with
  | [] => none
  | (k', v) :: t => if k' = k then some v else assocFind t k

/-- The `INSERT OR REPLACE` write, keyed on the primary key. -/
def assocUpsert {α : Type} (l : List (String × α)) (k : String) (v : α) :
    List (String × α) :=
  match l with
  | [] => [(k, v)]
  | (k', v') :: t => if k' = k then (k, v) :: t else (k', v') :: assocUpsert t k v

/-- The `UPDATE ... WHERE pk = ?` write, applying `f` to the matching row. -/
def assocAdjust {α : Type} (l : List (String × α)) (k : String) (f : α → α) :
    List (String × α) :=
  match l with
  | [] => []
  | (k', v) :: t =>
    if k' = k then (k', f v) :: assocAdjust t k f
    else (k', v) :: assocAdjust t k f

/-- SQL `expires_at IS NULL OR expires_at > now` — the read-path liveness
check of `get_session`, `get_cache` and `get_user_sessions`. -/
def liveAt (now : Int) : Option Int → Bool
  | none => true
  | some e => now < e

/-- SQL `expires_at < now` — the sweeper's deletion condition
(`_cleanup_expired`); `NULL < now` is not true in SQL three-valued logic. -/
def sqlExpired (now : Int) : Option Int → Bool
  | none => false
  | some e => e < now

/-- Model of `Database.save_session`.  `expiresIn = none` models the Python call
`save_session(..., expires_in=None)`: `timedelta(seconds=None)` raises
`TypeError` before any SQL runs, the blanket `except` catches it and the
method returns `False`.  A non-serializable payload makes `json.dumps`
raise, with the same outcome.  Otherwise the row is upserted listing only
`(session_id, user_id, data, updated_at, expires_at)`, so `created_at`
takes its column default `CURRENT_TIMESTAMP` (= `now`). -/
def saveSession (db : DB) (now : Int) (sessionId userId : String)
    (data : List (String × PyVal)) (expiresIn : Option Int) : Bool × DB :=
  match expiresIn with
  | none => (false, db)
  | some ttl =>
    if serializableDict data then
      let row : SessionRow := ⟨userId, data, now, now, some (now + ttl)⟩
      (true, { db with sessions := assocUpsert db.sessions sessionId row })
    else (false, db)

/-- Model of `Database.get_session`: select the row if live, then
`UPDATE sessions SET updated_at = now` on a hit. -/
def getSession (db : DB) (now : Int) (sessionId : String) :
    Option (List (String × PyVal)) × DB :=
  match assocFind db.sessions sessionId with
  | some row =>
    if liveAt now row.expiresAt then
      let touched := assocAdjust db.sessions sessionId (fun r => { r with updatedAt := now })
      (some row.data, { db with sessions := touched })
    else (none, db)
  | none => (none, db)

/-- Model of `Database.delete_session`: returns whether a row was removed. -/
def deleteSession (db : DB) (sessionId : String) : Bool × DB :=
  (db.sessions.any (fun p => p.1 == sessionId),
   { db with sessions := db.sessions.filter (fun p => !(p.1 == sessionId)) })

/-- Insertion into a list sorted by `updatedAt` descending. -/
def insertDesc (x : String × SessionRow) :
    List (String × SessionRow) → List (String × SessionRow)
  | [] => [x]
  | y :: ys =>
    if y.2.updatedAt ≤ x.2.updatedAt then x :: y :: ys else y :: insertDesc x ys

/-- The `ORDER BY updated_at DESC` ordering (insertion sort; SQL leaves ties unspecified). -/
def sortByUpdatedDesc :
    List (String × SessionRow) → List (String × SessionRow)
  | [] => []
  | x :: xs => insertDesc x (sortByUpdatedDesc xs)

/-- Model of `Database.get_user_sessions`: the live sessions of a user, most recently
updated first.  Mutates nothing. -/
def getUserSessions (db : DB) (now : Int) (userId : String) :
    List (String × SessionRow) :=
  sortByUpdatedDesc (db.sessions.filter
    (fun p => p.2.userId == userId && liveAt now p.2.expiresAt))

/-- Model of `Database.set_cache`: upsert listing only
`(key, value, expires_at, last_accessed)`, so `created_at` and
`access_count` take their column defaults (`now` and `0`). -/
def setCache (db : DB) (now : Int) (key : String) (value : PyVal)
    (expiresIn : Int) : Bool × DB :=
  if serializable value then
    let row : CacheRow := ⟨value, now, some (now + expiresIn), 0, now⟩
    (true, { db with cache := assocUpsert db.cache key row })
  else (false, db)

/-- Model of `Database.get_cache`: select the row if live, then on a hit
`UPDATE cache SET access_count = access_count + 1, last_accessed = now`. -/
def getCache (db : DB) (now : Int) (key : String) : Option PyVal × DB :=
  match assocFind db.cache key with
  | some row =>
    if liveAt now row.expiresAt then
      let touched := assocAdjust db.cache key
        (fun r => { r with accessCount := r.accessCount + 1, lastAccessed := now })
      (some row.value, { db with cache := touched })
    else (none, db)
  | none => (none, db)

/-- Model of `Database.delete_cache`. -/
def deleteCache (db : DB) (key : String) : Bool × DB :=
  (db.cache.any (fun p => p.1 == key),
   { db with cache := db.cache.filter (fun p => !(p.1 == key)) })

/-- ASCII lower-casing, the case folding SQLite's default `LIKE` applies. -/
def lowerChar (c : Char) : Char :=
  if 'A' ≤ c ∧ c ≤ 'Z' then Char.ofNat (c.toNat + 32) else c

def lowerL (s : List Char) : List Char := s.map lowerChar

/-- All suffixes of a list, longest first (including the list itself and
`[]`). -/
def suffixesOf : List Char → List (List Char)
  | [] => [[]]
  | c :: s => (c :: s) :: suffixesOf s

/-- SQLite `LIKE` pattern matching: `%` matches any sequence, `_` any single
character, other characters match ASCII-case-insensitively. -/
def likeMatch (ps : List Char) : List Char → Bool :=
  match ps with
  | [] => fun s => s.isEmpty
  | p :: pr =>
    let rest := likeMatch pr
    if p = '%' then fun s => (suffixesOf s).any rest
    else fun s =>
      match s with
      | [] => false
      | d :: st =>
        (if p = '_' then true else lowerChar p == lowerChar d) && rest st

/-- Model of `Database.clear_cache`.  `pattern = none` models the Python default
`None`; the guard `if pattern:` is Python truthiness, so the empty string
also takes the delete-everything branch.  With a pattern, the SQL is
`DELETE FROM cache WHERE key LIKE '%' || pattern || '%'`, and `rowcount`
(the number of rows deleted) is returned. -/
def clearCache (db : DB) (pattern : Option String) : Nat × DB :=
  match pattern with
  | some p =>
    if p.data.isEmpty then (db.cache.length, { db with cache := [] })
    else
      let hit := fun (kv : String × CacheRow) =>
        likeMatch ('%' :: (p.data ++ ['%'])) kv.1.data
      let kept := db.cache.filter (fun kv => !(hit kv))
      ((db.cache.filter hit).length, { db with cache := kept })
  | none => (db.cache.length, { db with cache := [] })

/-- Model of `Database.set_setting`: upsert of `(key, value, description, updated_at)`. -/
def setSetting (db : DB) (now : Int) (key : String) (value : PyVal)
    (description : Option String) : Bool × DB :=
  if serializable value then
    let row : SettingRow := ⟨value, description, now⟩
    (true, { db with settings := assocUpsert db.settings key row })
  else (false, db)

/-- Model of `Database.get_setting`: the stored value, or the caller's default on a
miss.  Mutates nothing. -/
def getSetting (db : DB) (key : String) (dflt : PyVal) : PyVal :=
  match assocFind db.settings key with
  | some row => row.value
  | none => dflt

/-- Model of `Database._cleanup_expired` — one sweeper tick: one
`DELETE FROM sessions WHERE expires_at < now` pass and one identical pass
over `cache` (`WindowsSessionManager._cleanup_worker` runs exactly this on
each tick). -/
def cleanupExpired (db : DB) (now : Int) : DB :=
  { db with
    sessions := db.sessions.filter (fun p => !(sqlExpired now p.2.expiresAt)),
    cache := db.cache.filter (fun p => !(sqlExpired now p.2.expiresAt)) }

/-- The two `get_stats` counts the claims are about: plain `COUNT(*)` over
`sessions` and over `cache` — note there is no expiry filter in the SQL. -/
structure Stats where
  sessionsCount : Nat
  cacheCount : Nat
deriving DecidableEq, Repr

/-- Model of `Database.get_stats`, restricted to the row counts of the modelled
tables (`users`/`chats` counts and the file size concern unmodelled parts). -/
def getStats (db : DB) : Stats :=
  ⟨db.sessions.length, db.cache.length⟩

/-- Runs `n` consecutive `get_cache` calls on the same key at the same time. -/
def getCacheIter (db : DB) (now : Int) (key : String) : Nat → DB
  | 0 => db
  | Nat.succ n => getCacheIter (getCache db now key).2 now key n

/-- Keep an optional value only when it satisfies `Q` (used to state how
lookups interact with row-level filters such as the sweeper's delete). -/
def optFilter {α : Type} (Q : α → Bool) : Option α → Option α
  | some v => if Q v then some v else none
  | none => none

/-- A `LIKE` pattern with no wildcard characters. -/
def noWild (p : List Char) : Bool :=
  p.all (fun c => !(c == '%') && !(c == '_'))

/-- Spec-side notion for C5: `p` occurs at the start of `t`. -/
def isPreL : List Char → List Char → Bool
  | [], _ => true
  | _ :: _, [] => false
  | a :: ar, b :: br => (a == b) && isPreL ar br

/-- Spec-side notion for C5 ("keys whose text contains the pattern as a
substring"): `p` occurs contiguously somewhere in `s`. -/
def containsSub (s p : List Char) : Bool :=
  (suffixesOf s).any (fun t => isPreL p t)

/-! ## Association-list lemmas -/

theorem assocFind_upsert_self {α : Type} (l : List (String × α)) (k : String) (v : α) :
    assocFind (assocUpsert l k v) k = some v := by
  induction l with
  | nil => simp [assocFind, assocUpsert]
  | cons p t ih =>
    obtain ⟨k', v'⟩ := p
    by_cases h : k' = k
    · simp [assocUpsert, assocFind, h]
    · simp [assocUpsert, assocFind, h, ih]

theorem assocFind_upsert_other {α : Type} (l : List (String × α)) (k k' : String)
    (v : α) (h : k' ≠ k) :
    assocFind (assocUpsert l k v) k' = assocFind l k' := by
  induction l with
  | nil => simp [assocFind, assocUpsert, Ne.symm h]
  | cons p t ih =>
    obtain ⟨k'', v''⟩ := p
    by_cases hk : k'' = k
    · subst hk
      simp [assocUpsert, assocFind, Ne.symm h]
    · simp [assocUpsert, assocFind, hk, ih]

theorem assocFind_adjust_self {α : Type} (l : List (String × α)) (k : String)
    (f : α → α) :
    assocFind (assocAdjust l k f) k = (assocFind l k).map f := by
  induction l with
  | nil => simp [assocFind, assocAdjust]
  | cons p t ih =>
    obtain ⟨k', v⟩ := p
    by_cases h : k' = k
    · simp [assocAdjust, assocFind, h]
    · simp [assocAdjust, assocFind, h, ih]

theorem assocFind_adjust_other {α : Type} (l : List (String × α)) (k k' : String)
    (f : α → α) (h : k' ≠ k) :
    assocFind (assocAdjust l k f) k' = assocFind l k' := by
  induction l with
  | nil => simp [assocFind, assocAdjust]
  | cons p t ih =>
    obtain ⟨k'', v⟩ := p
    by_cases hk : k'' = k
    · subst hk
      simp [assocAdjust, assocFind, Ne.symm h, ih]
    · simp [assocAdjust, assocFind, hk, ih]

theorem assocFind_eq_none_of_not_mem {α : Type} (l : List (String × α)) (k : String)
    (h : k ∉ l.map Prod.fst) : assocFind l k = none := by
  induction l with
  | nil => simp [assocFind]
  | cons p t ih =>
    obtain ⟨k', v⟩ := p
    simp only [List.map_cons, List.mem_cons] at h
    push_neg at h
    simp [assocFind, Ne.symm h.1, ih h.2]

theorem assocFind_filterKey {α : Type} (l : List (String × α)) (k : String)
    (P : String → Bool) :
    assocFind (l.filter (fun p => P p.1)) k
      = if P k then assocFind l k else none := by
  induction l with
  | nil => simp [assocFind]
  | cons p t ih =>
    obtain ⟨k', v⟩ := p
    by_cases hP : P k'
    · by_cases hk : k' = k
      · subst hk
        simp [assocFind, List.filter_cons, hP]
      · simp [assocFind, List.filter_cons, hP, hk, ih]
    · by_cases hk : k' = k
      · subst hk
        simp [assocFind, List.filter_cons, hP, ih]
      · simp [assocFind, List.filter_cons, hP, hk, ih]

theorem assocFind_filterRow {α : Type} (l : List (String × α)) (k : String)
    (Q : α → Bool) (h : (l.map Prod.fst).Nodup) :
    assocFind (l.filter (fun p => Q p.2)) k = optFilter Q (assocFind l k) := by
  induction l with
  | nil => simp [assocFind, optFilter]
  | cons p t ih =>
    obtain ⟨k', v⟩ := p
    simp only [List.map_cons, List.nodup_cons] at h
    by_cases hQ : Q v
    · by_cases hk : k' = k
      · subst hk
        simp [assocFind, List.filter_cons, hQ, optFilter]
      · simp [assocFind, List.filter_cons, hQ, hk, ih h.2]
    · by_cases hk : k' = k
      · subst hk
        have hnone : assocFind (t.filter (fun p => Q p.2)) k' = none := by
          apply assocFind_eq_none_of_not_mem
          intro hmem
          apply h.1
          simp only [List.mem_map] at hmem ⊢
          obtain ⟨q, hq, hqk⟩ := hmem
          exact ⟨q, (List.mem_filter.mp hq).1, hqk⟩
        simp [assocFind, List.filter_cons, hQ, hnone, optFilter]
      · simp [assocFind, List.filter_cons, hQ, hk, ih h.2]

theorem mem_insertDesc (x a : String × SessionRow) (l : List (String × SessionRow)) :
    a ∈ insertDesc x l ↔ a = x ∨ a ∈ l := by
  induction l with
  | nil => simp [insertDesc]
  | cons y ys ih =>
    by_cases h : y.2.updatedAt ≤ x.2.updatedAt
    · simp [insertDesc, h]
    · simp [insertDesc, h, ih]
      tauto

theorem mem_sortByUpdatedDesc (a : String × SessionRow)
    (l : List (String × SessionRow)) :
    a ∈ sortByUpdatedDesc l ↔ a ∈ l := by
  induction l with
  | nil => simp [sortByUpdatedDesc]
  | cons x xs ih =>
    simp [sortByUpdatedDesc, mem_insertDesc, ih]

/-! ## `LIKE` matching lemmas -/

theorem lowerL_cons (c : Char) (s : List Char) :
    lowerL (c :: s) = lowerChar c :: lowerL s := rfl

theorem suffixesOf_lowerL (s : List Char) :
    suffixesOf (lowerL s) = (suffixesOf s).map lowerL := by
  induction s with
  | nil => rfl
  | cons c s ih =>
    rw [lowerL_cons]
    simp [suffixesOf, ih, lowerL_cons]

theorem likeMatch_nil (s : List Char) : likeMatch [] s = s.isEmpty := rfl

theorem likeMatch_percent (pr s : List Char) :
    likeMatch ('%' :: pr) s = (suffixesOf s).any (likeMatch pr) := rfl

theorem likeMatch_cons_nil (p : Char) (pr : List Char) (h : ¬ p = '%') :
    likeMatch (p :: pr) [] = false := by
  simp [likeMatch, h]

theorem likeMatch_cons_cons (p : Char) (pr : List Char) (d : Char) (st : List Char)
    (h : ¬ p = '%') :
    likeMatch (p :: pr) (d :: st)
      = ((if p = '_' then true else lowerChar p == lowerChar d)
          && likeMatch pr st) := by
  simp [likeMatch, h]

theorem likeMatch_percent_singleton (s : List Char) : likeMatch ['%'] s = true := by
  induction s with
  | nil => rfl
  | cons c s ih =>
    rw [likeMatch_percent] at ih ⊢
    simp only [suffixesOf, List.any_cons]
    simp [ih]

theorem noWild_cons {c : Char} {p : List Char} (h : noWild (c :: p) = true) :
    (¬ c = '%') ∧ (¬ c = '_') ∧ noWild p = true := by
  simp only [noWild, List.all_cons, Bool.and_eq_true, Bool.not_eq_true',
    beq_eq_false_iff_ne, ne_eq] at h
  exact ⟨h.1.1, h.1.2, h.2⟩

theorem likeMatch_noWild_pre : ∀ p : List Char, noWild p = true →
    ∀ t, likeMatch (p ++ ['%']) t = isPreL (lowerL p) (lowerL t) := by
  intro p
  induction p with
  | nil =>
    intro _ t
    simp [likeMatch_percent_singleton, isPreL, lowerL]
  | cons c p ih =>
    intro hw t
    obtain ⟨hc1, hc2, hw'⟩ := noWild_cons hw
    cases t with
    | nil =>
      rw [List.cons_append, likeMatch_cons_nil c _ hc1]
      simp [lowerL_cons, isPreL, lowerL]
    | cons d t' =>
      rw [List.cons_append, likeMatch_cons_cons c _ d t' hc1]
      simp [hc2, ih hw', lowerL_cons, isPreL, lowerL]

theorem likeMatch_noWild_contains (p : List Char) (hw : noWild p = true)
    (s : List Char) :
    likeMatch ('%' :: (p ++ ['%'])) s = containsSub (lowerL s) (lowerL p) := by
  rw [likeMatch_percent]
  unfold containsSub
  rw [suffixesOf_lowerL, List.any_map]
  have hfun : likeMatch (p ++ ['%']) = fun t => isPreL (lowerL p) (lowerL t) :=
    funext (likeMatch_noWild_pre p hw)
  rw [hfun]
  rfl

/-- The empty pattern occurs in every string. -/
theorem containsSub_nil_pat (s : List Char) : containsSub s [] = true := by
  cases s <;> simp [containsSub, suffixesOf, isPreL]

/-! ## Operation-level lemmas -/

/-- A `get_cache` hit returns the stored value and rewrites the row to the
same row with `access_count` bumped by one and `last_accessed` refreshed. -/
theorem getCache_hit_step (db : DB) (now : Int) (key : String) (row : CacheRow)
    (hfind : assocFind db.cache key = some row)
    (hlive : liveAt now row.expiresAt = true) :
    (getCache db now key).1 = some row.value ∧
    assocFind ((getCache db now key).2).cache key
      = some { row with accessCount := row.accessCount + 1, lastAccessed := now } := by
  constructor
  · simp [getCache, hfind, hlive]
  · simp [getCache, hfind, hlive, assocFind_adjust_self]

/-- Iterating `get_cache` `n` times on a live row adds `n` to its
`access_count` and leaves `last_accessed = now`. -/
theorem getCacheIter_accessCount (now : Int) (key : String) (v : PyVal) (ca : Int)
    (e : Option Int) (hlive : liveAt now e = true) :
    ∀ (n : Nat) (db : DB) (c : Int),
      assocFind db.cache key = some ⟨v, ca, e, c, now⟩ →
      assocFind (getCacheIter db now key n).cache key
        = some ⟨v, ca, e, c + (n : Int), now⟩ := by
  intro n
  induction n with
  | zero =>
    intro db c h
    simpa [getCacheIter] using h
  | succ n ih =>
    intro db c h
    have step := (getCache_hit_step db now key ⟨v, ca, e, c, now⟩ h hlive).2
    have hrec := ih ((getCache db now key).2) (c + 1) step
    have hunf : getCacheIter db now key (Nat.succ n)
        = getCacheIter ((getCache db now key).2) now key n := rfl
    rw [hunf, hrec]
    simp only [Option.some.injEq, CacheRow.mk.injEq, true_and, and_true]
    push_cast
    ring

/-! ## Claim C2 -/

/-- C2: Round-trip — for every session id, user id, JSON-serializable data
mapping and ttl > 0, `save_session` succeeds and an immediate `get_session`
with the same id returns the stored data unchanged. -/
theorem save_session_get_session_roundtrip (db : DB) (now : Int) (sid uid : String)
    (data : List (String × PyVal)) (ttl : Int) (httl : 0 < ttl)
    (hser : serializableDict data = true) :
    (saveSession db now sid uid data (some ttl)).1 = true ∧
    (getSession (saveSession db now sid uid data (some ttl)).2 now sid).1
      = some data := by
  have hfind : assocFind ((saveSession db now sid uid data (some ttl)).2).sessions sid
      = some ⟨uid, data, now, now, some (now + ttl)⟩ := by
    simp [saveSession, hser, assocFind_upsert_self]
  have hlive : liveAt now (some (now + ttl)) = true := by
    simp only [liveAt, decide_eq_true_eq]
    omega
  constructor
  · simp [saveSession, hser]
  · simp [getSession, hfind, hlive]

/-- Witness for C2 at a concrete input. -/
theorem save_session_get_session_roundtrip_witness :
    (0 : Int) < 60 ∧ serializableDict [("a", PyVal.int 1)] = true ∧
    (saveSession DB.empty 0 "s1" "u1" [("a", PyVal.int 1)] (some 60)).1 = true ∧
    (getSession (saveSession DB.empty 0 "s1" "u1" [("a", PyVal.int 1)] (some 60)).2
        0 "s1").1 = some [("a", PyVal.int 1)] :=
  ⟨by decide, by decide,
   (save_session_get_session_roundtrip DB.empty 0 "s1" "u1" [("a", PyVal.int 1)] 60
     (by decide) (by decide)).1,
   (save_session_get_session_roundtrip DB.empty 0 "s1" "u1" [("a", PyVal.int 1)] 60
     (by decide) (by decide)).2⟩

/-! ## Claim C3 -/

/-- C3: Access counting — every successful `get_cache` increments
`access_count` by one and refreshes `last_accessed`; `n` consecutive hits
after a `set_cache` yield `access_count = n` (and each of them is a hit
returning the value); a subsequent `set_cache` on the key resets
`access_count` to 0. -/
theorem cache_access_counting (db : DB) (now : Int) (key : String) (v : PyVal)
    (ttl : Int) (n : Nat) (hser : serializable v = true) (httl : 0 < ttl) :
    (∀ (dbx : DB) (row : CacheRow), assocFind dbx.cache key = some row →
        liveAt now row.expiresAt = true →
        assocFind ((getCache dbx now key).2).cache key
          = some { row with accessCount := row.accessCount + 1,
                            lastAccessed := now })
    ∧ (assocFind (getCacheIter (setCache db now key v ttl).2 now key n).cache key).map
        (fun r => r.accessCount) = some (n : Int)
    ∧ (assocFind (getCacheIter (setCache db now key v ttl).2 now key n).cache key).map
        (fun r => r.lastAccessed) = some now
    ∧ (getCache (getCacheIter (setCache db now key v ttl).2 now key n) now key).1
        = some v
    ∧ (assocFind ((setCache (getCacheIter (setCache db now key v ttl).2 now key n)
          now key v ttl).2).cache key).map (fun r => r.accessCount) = some 0 := by
  have hlive : liveAt now (some (now + ttl)) = true := by
    simp only [liveAt, decide_eq_true_eq]
    omega
  have hset : assocFind ((setCache db now key v ttl).2).cache key
      = some ⟨v, now, some (now + ttl), 0, now⟩ := by
    simp [setCache, hser, assocFind_upsert_self]
  have hiter := getCacheIter_accessCount now key v now (some (now + ttl)) hlive n
    ((setCache db now key v ttl).2) 0 hset
  refine ⟨?_, ?_, ?_, ?_, ?_⟩
  · intro dbx row hf hl
    exact (getCache_hit_step dbx now key row hf hl).2
  · rw [hiter]
    simp
  · rw [hiter]
    simp
  · exact (getCache_hit_step _ now key _ hiter hlive).1
  · simp [setCache, hser, assocFind_upsert_self]

/-- Witness for C3 at a concrete input (3 hits give count 3, reset to 0). -/
theorem cache_access_counting_witness :
    serializable (PyVal.int 5) = true ∧ (0 : Int) < 10 ∧
    (assocFind (getCacheIter (setCache DB.empty 0 "k" (PyVal.int 5) 10).2 0 "k" 3).cache
        "k").map (fun r => r.accessCount) = some ((3 : Nat) : Int) ∧
    (assocFind ((setCache (getCacheIter (setCache DB.empty 0 "k" (PyVal.int 5) 10).2
        0 "k" 3) 0 "k" (PyVal.int 5) 10).2).cache "k").map
        (fun r => r.accessCount) = some 0 :=
  ⟨by decide, by decide,
   (cache_access_counting DB.empty 0 "k" (PyVal.int 5) 10 3 (by decide)
     (by decide)).2.1,
   (cache_access_counting DB.empty 0 "k" (PyVal.int 5) 10 3 (by decide)
     (by decide)).2.2.2.2⟩

/-! ## Claim C9 -/

/-- C9: Upserting an existing row does not preserve its creation timestamp —
`save_session` and `set_cache` write via insert-or-replace listing only a
subset of columns, so overwriting an existing session or cache row resets
`created_at` to the current time (and for sessions, every unlisted column)
instead of keeping the original value. -/
theorem upsert_resets_created_at (db : DB) (now : Int) (sid uid key : String)
    (data : List (String × PyVal)) (v : PyVal) (ttl tc : Int)
    (old : SessionRow) (oldc : CacheRow)
    (_hs : assocFind db.sessions sid = some old)
    (_hc : assocFind db.cache key = some oldc)
    (hser : serializableDict data = true) (hv : serializable v = true) :
    assocFind ((saveSession db now sid uid data (some ttl)).2).sessions sid
      = some ⟨uid, data, now, now, some (now + ttl)⟩
    ∧ assocFind ((setCache db now key v tc).2).cache key
      = some ⟨v, now, some (now + tc), 0, now⟩ := by
  constructor
  · simp [saveSession, hser, assocFind_upsert_self]
  · simp [setCache, hv, assocFind_upsert_self]

/-- Witness for C9: rows created at time 0 are overwritten at time 7 and
their `created_at` becomes 7. -/
theorem upsert_resets_created_at_witness :
    assocFind ((setCache (saveSession DB.empty 0 "s" "u0" [] (some 100)).2
        0 "k" PyVal.null 100).2).sessions "s" = some ⟨"u0", [], 0, 0, some 100⟩ ∧
    assocFind ((saveSession (setCache (saveSession DB.empty 0 "s" "u0" [] (some 100)).2
        0 "k" PyVal.null 100).2 7 "s" "u1" [] (some 50)).2).sessions "s"
      = some ⟨"u1", [], 7, 7, some (7 + 50)⟩ ∧
    assocFind ((setCache (setCache (saveSession DB.empty 0 "s" "u0" [] (some 100)).2
        0 "k" PyVal.null 100).2 7 "k" (PyVal.int 2) 50).2).cache "k"
      = some ⟨PyVal.int 2, 7, some (7 + 50), 0, 7⟩ :=
  ⟨by decide,
   (upsert_resets_created_at
      (setCache (saveSession DB.empty 0 "s" "u0" [] (some 100)).2 0 "k" PyVal.null 100).2
      7 "s" "u1" "k" [] (PyVal.int 2) 50 50 ⟨"u0", [], 0, 0, some 100⟩
      ⟨PyVal.null, 0, some 100, 0, 0⟩ (by decide) (by decide) (by decide) (by decide)).1,
   (upsert_resets_created_at
      (setCache (saveSession DB.empty 0 "s" "u0" [] (some 100)).2 0 "k" PyVal.null 100).2
      7 "s" "u1" "k" [] (PyVal.int 2) 50 50 ⟨"u0", [], 0, 0, some 100⟩
      ⟨PyVal.null, 0, some 100, 0, 0⟩ (by decide) (by decide) (by decide) (by decide)).2⟩

/-! ## Claim C10 -/

/-- C10: A successful `Database.get_session` hit modifies only the row's
`updated_at`; `expires_at`, `data`, `user_id` and `created_at` are
unchanged, other rows and the other tables are untouched, so the expiry
deadline does not slide on read at the store layer — it moves only when a
caller performs a fresh `save_session` (which sets it to `now + ttl`). -/
theorem get_session_hit_frame (db : DB) (now : Int) (sid : String)
    (row : SessionRow) (hfind : assocFind db.sessions sid = some row)
    (hlive : liveAt now row.expiresAt = true) :
    (getSession db now sid).1 = some row.data
    ∧ assocFind ((getSession db now sid).2).sessions sid
        = some { row with updatedAt := now }
    ∧ (∀ other, other ≠ sid →
        assocFind ((getSession db now sid).2).sessions other
          = assocFind db.sessions other)
    ∧ ((getSession db now sid).2).cache = db.cache
    ∧ ((getSession db now sid).2).settings = db.settings
    ∧ (∀ (now2 ttl : Int) (uid2 : String) (data2 : List (String × PyVal)),
        serializableDict data2 = true →
        assocFind ((saveSession ((getSession db now sid).2) now2 sid uid2 data2
            (some ttl)).2).sessions sid
          = some ⟨uid2, data2, now2, now2, some (now2 + ttl)⟩) := by
  refine ⟨?_, ?_, ?_, ?_, ?_, ?_⟩
  · simp [getSession, hfind, hlive]
  · simp [getSession, hfind, hlive, assocFind_adjust_self]
  · intro other hother
    simp [getSession, hfind, hlive, assocFind_adjust_other _ _ _ _ hother]
  · simp [getSession, hfind, hlive]
  · simp [getSession, hfind, hlive]
  · intro now2 ttl uid2 data2 hser2
    simp [saveSession, hser2, assocFind_upsert_self]

/-- Witness for C10 at a concrete input. -/
theorem get_session_hit_frame_witness :
    (getSession (saveSession DB.empty 0 "s" "u" [("a", PyVal.int 1)] (some 9)).2
        5 "s").1 = some [("a", PyVal.int 1)] ∧
    assocFind ((getSession (saveSession DB.empty 0 "s" "u" [("a", PyVal.int 1)]
        (some 9)).2 5 "s").2).sessions "s"
      = some ⟨"u", [("a", PyVal.int 1)], 0, 5, some 9⟩ :=
  ⟨(get_session_hit_frame (saveSession DB.empty 0 "s" "u" [("a", PyVal.int 1)]
      (some 9)).2 5 "s" ⟨"u", [("a", PyVal.int 1)], 0, 0, some 9⟩
      (by decide) (by decide)).1,
   (get_session_hit_frame (saveSession DB.empty 0 "s" "u" [("a", PyVal.int 1)]
      (some 9)).2 5 "s" ⟨"u", [("a", PyVal.int 1)], 0, 0, some 9⟩
      (by decide) (by decide)).2.1⟩

/-! ## Claim C8 -/

/-- C8: No-raise propagation — every modelled failure of a core store
operation is converted into a return value instead of an exception: a
failed write (non-serializable payload, or the invalid `None` ttl) returns
`false` and leaves the whole prior state intact; a read that finds nothing
returns `none` (respectively the caller's default, or the empty list) and
leaves the state intact, indistinguishable from a miss. -/
theorem no_raise_propagation (db : DB) (now ttl tc : Int) (sid uid key : String)
    (v : PyVal) (data : List (String × PyVal)) (dflt : PyVal)
    (desc : Option String)
    (hd : serializableDict data = false) (hv : serializable v = false) :
    saveSession db now sid uid data (some ttl) = (false, db)
    ∧ saveSession db now sid uid data none = (false, db)
    ∧ setCache db now key v tc = (false, db)
    ∧ setSetting db now key v desc = (false, db)
    ∧ (assocFind db.sessions sid = none → getSession db now sid = (none, db))
    ∧ (assocFind db.cache key = none → getCache db now key = (none, db))
    ∧ (assocFind db.settings key = none → getSetting db key dflt = dflt)
    ∧ ((∀ p ∈ db.sessions, ¬ (p.2.userId == uid && liveAt now p.2.expiresAt) = true) →
        getUserSessions db now uid = []) := by
  refine ⟨?_, ?_, ?_, ?_, ?_, ?_, ?_, ?_⟩
  · simp [saveSession, hd]
  · simp [saveSession]
  · simp [setCache, hv]
  · simp [setSetting, hv]
  · intro h
    simp [getSession, h]
  · intro h
    simp [getCache, h]
  · intro h
    simp [getSetting, h]
  · intro h
    have : db.sessions.filter (fun p => p.2.userId == uid && liveAt now p.2.expiresAt)
        = [] := List.filter_eq_nil_iff.mpr h
    simp [getUserSessions, this, sortByUpdatedDesc]

/-- Witness for C8 at a concrete input (a non-serializable payload). -/
theorem no_raise_propagation_witness :
    serializableDict [("x", PyVal.obj 0)] = false ∧
    serializable (PyVal.obj 1) = false ∧
    saveSession DB.empty 0 "s" "u" [("x", PyVal.obj 0)] (some 9) = (false, DB.empty) ∧
    setCache DB.empty 0 "k" (PyVal.obj 1) 9 = (false, DB.empty) ∧
    getSession DB.empty 0 "s" = (none, DB.empty) ∧
    getSetting DB.empty "k" PyVal.null = PyVal.null :=
  ⟨by decide, by decide,
   (no_raise_propagation DB.empty 0 9 9 "s" "u" "k" (PyVal.obj 1) [("x", PyVal.obj 0)]
      PyVal.null none (by decide) (by decide)).1,
   (no_raise_propagation DB.empty 0 9 9 "s" "u" "k" (PyVal.obj 1) [("x", PyVal.obj 0)]
      PyVal.null none (by decide) (by decide)).2.2.1,
   (no_raise_propagation DB.empty 0 9 9 "s" "u" "k" (PyVal.obj 1) [("x", PyVal.obj 0)]
      PyVal.null none (by decide) (by decide)).2.2.2.2.1 (by decide),
   (no_raise_propagation DB.empty 0 9 9 "s" "u" "k" (PyVal.obj 1) [("x", PyVal.obj 0)]
      PyVal.null none (by decide) (by decide)).2.2.2.2.2.2.1 (by decide)⟩

/-! ## Claim C6 -/

/-- C6 counterexample: the claim says `save_session` with an unbounded/none
ttl succeeds (returns true) and stores `expires_at = none`; in the code
`timedelta(seconds=None)` raises `TypeError`, the exception handler returns
`False`, and nothing is stored. -/
theorem save_session_none_ttl_counterexample :
    saveSession DB.empty 0 "s" "u" [("a", PyVal.int 1)] none = (false, DB.empty) := by
  decide

/-- C6 (amended): `save_session` does not accept an unbounded/none ttl —
such a call fails (returns false) and leaves the state unchanged, and every
row `save_session` does store carries `expires_at = now + ttl` (never
none), so a never-expiring session cannot be created through
`save_session`. -/
theorem save_session_rejects_unbounded_ttl (db : DB) (now : Int)
    (sid uid : String) (data : List (String × PyVal)) :
    saveSession db now sid uid data none = (false, db)
    ∧ (∀ ttl : Int, serializableDict data = true →
        (assocFind ((saveSession db now sid uid data (some ttl)).2).sessions sid).map
            (fun r => r.expiresAt) = some (some (now + ttl))) := by
  constructor
  · simp [saveSession]
  · intro ttl hser
    simp [saveSession, hser, assocFind_upsert_self]

/-- Witness for C6 (amended) at a concrete input. -/
theorem save_session_rejects_unbounded_ttl_witness :
    saveSession DB.empty 0 "s" "u" [] none = (false, DB.empty) ∧
    serializableDict ([] : List (String × PyVal)) = true ∧
    (assocFind ((saveSession DB.empty 0 "s" "u" [] (some 60)).2).sessions "s").map
        (fun r => r.expiresAt) = some (some (0 + 60)) :=
  ⟨(save_session_rejects_unbounded_ttl DB.empty 0 "s" "u" []).1,
   by decide,
   (save_session_rejects_unbounded_ttl DB.empty 0 "s" "u" []).2 60 (by decide)⟩

/-! ## Claim C7 -/

/-- C7 counterexample: the claim says `set_cache` with an empty key returns
false and stores nothing; in the code there is no key validation — the call
returns true and the value is readable under the empty key. -/
theorem empty_key_accepted_counterexample :
    (setCache DB.empty 0 "" (PyVal.int 7) 300).1 = true
    ∧ (getCache (setCache DB.empty 0 "" (PyVal.int 7) 300).2 0 "").1
        = some (PyVal.int 7) := by
  decide

/-- C7 (amended): no write operation validates its key at the API boundary —
`save_session`, `set_cache` and `set_setting` accept the empty key, store
the row and return true whenever serialization succeeds; in particular
`set_cache` with an empty key returns true and stores the row. -/
theorem writes_accept_empty_key (db : DB) (now : Int) (uid : String) (v : PyVal)
    (data : List (String × PyVal)) (ttl : Int) (desc : Option String)
    (hv : serializable v = true) (hd : serializableDict data = true) :
    (setCache db now "" v ttl).1 = true
    ∧ assocFind ((setCache db now "" v ttl).2).cache ""
        = some ⟨v, now, some (now + ttl), 0, now⟩
    ∧ (saveSession db now "" uid data (some ttl)).1 = true
    ∧ assocFind ((saveSession db now "" uid data (some ttl)).2).sessions ""
        = some ⟨uid, data, now, now, some (now + ttl)⟩
    ∧ (setSetting db now "" v desc).1 = true
    ∧ assocFind ((setSetting db now "" v desc).2).settings ""
        = some ⟨v, desc, now⟩ := by
  refine ⟨?_, ?_, ?_, ?_, ?_, ?_⟩
  · simp [setCache, hv]
  · simp [setCache, hv, assocFind_upsert_self]
  · simp [saveSession, hd]
  · simp [saveSession, hd, assocFind_upsert_self]
  · simp [setSetting, hv]
  · simp [setSetting, hv, assocFind_upsert_self]

/-- Witness for C7 (amended) at a concrete input. -/
theorem writes_accept_empty_key_witness :
    serializable (PyVal.int 7) = true ∧
    serializableDict ([] : List (String × PyVal)) = true ∧
    (setCache DB.empty 0 "" (PyVal.int 7) 300).1 = true ∧
    (setSetting DB.empty 0 "" (PyVal.int 7) none).1 = true :=
  ⟨by decide, by decide,
   (writes_accept_empty_key DB.empty 0 "u" (PyVal.int 7) [] 300 none
      (by decide) (by decide)).1,
   (writes_accept_empty_key DB.empty 0 "u" (PyVal.int 7) [] 300 none
      (by decide) (by decide)).2.2.2.2.1⟩

/-! ## Sweeper lemmas (for C1 and C4) -/

theorem ite_some_none_eq_some {α : Type} (b : Bool) (x y : α) :
    (if b then some x else none) = some y ↔ (x = y ∧ b = true) := by
  cases b <;> simp

/-- The sweeper keeps a row iff `expires_at` is null or not strictly past. -/
theorem sqlExpired_eq_false_iff (now : Int) (o : Option Int) :
    sqlExpired now o = false ↔ (o = none ∨ ∃ e, o = some e ∧ ¬ e < now) := by
  cases o with
  | none => simp [sqlExpired]
  | some e => simp [sqlExpired]

theorem assocFind_cleanup_sessions (db : DB) (now : Int) (sid : String)
    (h : (db.sessions.map Prod.fst).Nodup) :
    assocFind (cleanupExpired db now).sessions sid
      = optFilter (fun r => !(sqlExpired now r.expiresAt))
          (assocFind db.sessions sid) := by
  show assocFind (db.sessions.filter (fun p => !(sqlExpired now p.2.expiresAt))) sid = _
  exact assocFind_filterRow db.sessions sid (fun r => !(sqlExpired now r.expiresAt)) h

theorem assocFind_cleanup_cache (db : DB) (now : Int) (key : String)
    (h : (db.cache.map Prod.fst).Nodup) :
    assocFind (cleanupExpired db now).cache key
      = optFilter (fun r => !(sqlExpired now r.expiresAt))
          (assocFind db.cache key) := by
  show assocFind (db.cache.filter (fun p => !(sqlExpired now p.2.expiresAt))) key = _
  exact assocFind_filterRow db.cache key (fun r => !(sqlExpired now r.expiresAt)) h

/-- A strictly-expired row is dead for the read path. -/
theorem liveAt_eq_false_of_sqlExpired (now : Int) (o : Option Int)
    (h : sqlExpired now o = true) : liveAt now o = false := by
  cases o with
  | none => simp [sqlExpired] at h
  | some e =>
    simp only [sqlExpired, decide_eq_true_eq] at h
    simp only [liveAt, decide_eq_false_iff_not]
    omega

theorem filter_then_filter {α : Type} (l : List α) (p q : α → Bool) :
    (l.filter p).filter q = l.filter (fun a => p a && q a) := by
  induction l with
  | nil => rfl
  | cons x t ih =>
    by_cases hp : p x
    · by_cases hq : q x <;> simp [List.filter_cons, hp, hq, ih]
    · simp [List.filter_cons, hp, ih]

/-- A session row that passes the user/live filter also survives the sweep. -/
theorem live_and_unswept (now : Int) (uid : String) (a : String × SessionRow) :
    (!(sqlExpired now a.2.expiresAt)
      && (a.2.userId == uid && liveAt now a.2.expiresAt))
      = (a.2.userId == uid && liveAt now a.2.expiresAt) := by
  cases hE : a.2.expiresAt with
  | none => simp [sqlExpired]
  | some e =>
    by_cases h : e < now
    · have h2 : ¬ now < e := by omega
      simp [sqlExpired, liveAt, h, h2]
    · simp [sqlExpired, h]

/-! ## Claim C4 -/

/-- C4 counterexample: the claim says a row expiring exactly at "now" is
deleted by the sweeper tick; the SQL condition is the strict
`expires_at < now`, so the tick at time 5 deletes nothing from a store
whose only row has `expires_at = 5` — even though the read path already
treats that row as expired. -/
theorem sweeper_boundary_counterexample :
    cleanupExpired (saveSession DB.empty 0 "s" "u" [] (some 5)).2 5
      = (saveSession DB.empty 0 "s" "u" [] (some 5)).2
    ∧ assocFind ((saveSession DB.empty 0 "s" "u" [] (some 5)).2).sessions "s"
      = some ⟨"u", [], 0, 0, some 5⟩
    ∧ (getSession (saveSession DB.empty 0 "s" "u" [] (some 5)).2 5 "s").1 = none := by
  decide

/-- C4 (amended): each sweeper tick deletes exactly those session and cache
rows whose `expires_at` is non-null and strictly before the current time;
a row with `expires_at` exactly equal to "now" survives the tick (though
reads already treat it as absent), and rows with null `expires_at` are
never deleted. -/
theorem sweeper_deletes_exactly_strictly_expired (db : DB) (now : Int)
    (sid key : String) (hwf : db.WF) :
    (∀ row : SessionRow,
      assocFind (cleanupExpired db now).sessions sid = some row ↔
        (assocFind db.sessions sid = some row ∧
          (row.expiresAt = none ∨ ∃ e, row.expiresAt = some e ∧ ¬ e < now)))
    ∧ (∀ row : CacheRow,
      assocFind (cleanupExpired db now).cache key = some row ↔
        (assocFind db.cache key = some row ∧
          (row.expiresAt = none ∨ ∃ e, row.expiresAt = some e ∧ ¬ e < now))) := by
  constructor
  · intro row
    have hclean := assocFind_cleanup_sessions db now sid hwf.1
    cases hf : assocFind db.sessions sid with
    | none =>
      simp only [hf, optFilter] at hclean
      simp [hclean, hf]
    | some v =>
      simp only [hf, optFilter] at hclean
      rw [hclean, ite_some_none_eq_some, Bool.not_eq_true',
        sqlExpired_eq_false_iff]
      constructor
      · rintro ⟨rfl, h2⟩
        exact ⟨rfl, h2⟩
      · rintro ⟨h1, h2⟩
        injection h1 with h1
        subst h1
        exact ⟨rfl, h2⟩
  · intro row
    have hclean := assocFind_cleanup_cache db now key hwf.2.1
    cases hf : assocFind db.cache key with
    | none =>
      simp only [hf, optFilter] at hclean
      simp [hclean, hf]
    | some v =>
      simp only [hf, optFilter] at hclean
      rw [hclean, ite_some_none_eq_some, Bool.not_eq_true',
        sqlExpired_eq_false_iff]
      constructor
      · rintro ⟨rfl, h2⟩
        exact ⟨rfl, h2⟩
      · rintro ⟨h1, h2⟩
        injection h1 with h1
        subst h1
        exact ⟨rfl, h2⟩

/-- Witness for C4 (amended): a live row survives the tick, and the
characterization applies at a concrete store. -/
theorem sweeper_deletes_exactly_strictly_expired_witness :
    DB.WF (saveSession DB.empty 0 "s" "u" [] (some 9)).2 ∧
    assocFind (cleanupExpired (saveSession DB.empty 0 "s" "u" [] (some 9)).2 5).sessions
      "s" = some ⟨"u", [], 0, 0, some 9⟩ :=
  ⟨by decide,
   ((sweeper_deletes_exactly_strictly_expired
      (saveSession DB.empty 0 "s" "u" [] (some 9)).2 5 "s" "k" (by decide)).1
      ⟨"u", [], 0, 0, some 9⟩).mpr
    ⟨by decide, Or.inr ⟨9, rfl, by decide⟩⟩⟩

/-! ## Claim C1 -/

/-- C1 counterexample: an expired-but-unswept session row is absent for
`get_session`, yet `get_stats` still counts it (1 before the sweep, 0
after), so expired-but-unswept is not observationally equivalent to absent
for `get_stats` row counts, contrary to the claim's parenthetical. -/
theorem expired_row_counted_by_stats_counterexample :
    (getSession (saveSession DB.empty 0 "s" "u" [] (some 1)).2 5 "s").1 = none
    ∧ getStats (saveSession DB.empty 0 "s" "u" [] (some 1)).2 = ⟨1, 0⟩
    ∧ getStats (cleanupExpired (saveSession DB.empty 0 "s" "u" [] (some 1)).2 5)
        = ⟨0, 0⟩ := by
  decide

/-- C1 (amended): a session or cache row whose `expires_at` is non-null and
not in the future is absent for every row-reading operation — `get_session`
and `get_cache` return none for it, `get_user_sessions` omits it — and
these reads return the same results whether or not the sweeper has run;
`get_stats` row counts, however, are plain `COUNT(*)` and do count
expired-but-unswept rows. -/
theorem expired_rows_absent_for_reads (db : DB) (now : Int) (sid key uid : String)
    (hwf : db.WF) :
    (∀ (row : SessionRow) (e : Int), assocFind db.sessions sid = some row →
        row.expiresAt = some e → e ≤ now → (getSession db now sid).1 = none)
    ∧ (∀ (row : CacheRow) (e : Int), assocFind db.cache key = some row →
        row.expiresAt = some e → e ≤ now → (getCache db now key).1 = none)
    ∧ (∀ (s : String) (row : SessionRow) (e : Int),
        (s, row) ∈ getUserSessions db now uid → row.expiresAt = some e → now < e)
    ∧ (getSession (cleanupExpired db now) now sid).1 = (getSession db now sid).1
    ∧ (getCache (cleanupExpired db now) now key).1 = (getCache db now key).1
    ∧ getUserSessions (cleanupExpired db now) now uid
        = getUserSessions db now uid := by
  refine ⟨?_, ?_, ?_, ?_, ?_, ?_⟩
  · intro row e hf he hle
    have hnl : liveAt now row.expiresAt = false := by
      rw [he]
      simp only [liveAt, decide_eq_false_iff_not]
      omega
    simp [getSession, hf, hnl]
  · intro row e hf he hle
    have hnl : liveAt now row.expiresAt = false := by
      rw [he]
      simp only [liveAt, decide_eq_false_iff_not]
      omega
    simp [getCache, hf, hnl]
  · intro s row e hmem he
    unfold getUserSessions at hmem
    have h1 := (mem_sortByUpdatedDesc _ _).mp hmem
    have h2 := (List.mem_filter.mp h1).2
    simp only [Bool.and_eq_true] at h2
    have hl := h2.2
    rw [he] at hl
    simpa [liveAt] using hl
  · have hclean := assocFind_cleanup_sessions db now sid hwf.1
    cases hf : assocFind db.sessions sid with
    | none =>
      simp only [hf, optFilter] at hclean
      simp [getSession, hclean, hf]
    | some v =>
      simp only [hf, optFilter] at hclean
      by_cases hex : sqlExpired now v.expiresAt = true
      · have hnl := liveAt_eq_false_of_sqlExpired now v.expiresAt hex
        simp only [hex, Bool.not_true, Bool.false_eq_true, if_false] at hclean
        simp [getSession, hclean, hf, hnl]
      · have hex' : sqlExpired now v.expiresAt = false := by
          simpa using hex
        simp only [hex', Bool.not_false, if_true] at hclean
        by_cases hl : liveAt now v.expiresAt = true
        · simp [getSession, hclean, hf, hl]
        · have hl' : liveAt now v.expiresAt = false := by simpa using hl
          simp [getSession, hclean, hf, hl']
  · have hclean := assocFind_cleanup_cache db now key hwf.2.1
    cases hf : assocFind db.cache key with
    | none =>
      simp only [hf, optFilter] at hclean
      simp [getCache, hclean, hf]
    | some v =>
      simp only [hf, optFilter] at hclean
      by_cases hex : sqlExpired now v.expiresAt = true
      · have hnl := liveAt_eq_false_of_sqlExpired now v.expiresAt hex
        simp only [hex, Bool.not_true, Bool.false_eq_true, if_false] at hclean
        simp [getCache, hclean, hf, hnl]
      · have hex' : sqlExpired now v.expiresAt = false := by
          simpa using hex
        simp only [hex', Bool.not_false, if_true] at hclean
        by_cases hl : liveAt now v.expiresAt = true
        · simp [getCache, hclean, hf, hl]
        · have hl' : liveAt now v.expiresAt = false := by simpa using hl
          simp [getCache, hclean, hf, hl']
  · unfold getUserSessions
    have hpred : (fun a : String × SessionRow =>
        !(sqlExpired now a.2.expiresAt)
          && (a.2.userId == uid && liveAt now a.2.expiresAt))
        = fun a => a.2.userId == uid && liveAt now a.2.expiresAt :=
      funext (live_and_unswept now uid)
    show sortByUpdatedDesc
        ((db.sessions.filter (fun p => !(sqlExpired now p.2.expiresAt))).filter
          (fun p => p.2.userId == uid && liveAt now p.2.expiresAt)) = _
    rw [filter_then_filter, hpred]

/-- Witness for C1 (amended) at a concrete store holding one expired
session row and one expired cache row (now = 5, both expired at 1). -/
theorem expired_rows_absent_for_reads_witness :
    DB.WF (setCache (saveSession DB.empty 0 "s" "u" [] (some 1)).2 0 "k"
        PyVal.null 1).2 ∧
    (getSession (setCache (saveSession DB.empty 0 "s" "u" [] (some 1)).2 0 "k"
        PyVal.null 1).2 5 "s").1 = none ∧
    (getCache (setCache (saveSession DB.empty 0 "s" "u" [] (some 1)).2 0 "k"
        PyVal.null 1).2 5 "k").1 = none ∧
    (getSession (cleanupExpired (setCache (saveSession DB.empty 0 "s" "u" []
        (some 1)).2 0 "k" PyVal.null 1).2 5) 5 "s").1
      = (getSession (setCache (saveSession DB.empty 0 "s" "u" [] (some 1)).2 0 "k"
        PyVal.null 1).2 5 "s").1 :=
  ⟨by decide,
   (expired_rows_absent_for_reads (setCache (saveSession DB.empty 0 "s" "u" []
      (some 1)).2 0 "k" PyVal.null 1).2 5 "s" "k" "u" (by decide)).1
     ⟨"u", [], 0, 0, some 1⟩ 1 (by decide) rfl (by decide),
   (expired_rows_absent_for_reads (setCache (saveSession DB.empty 0 "s" "u" []
      (some 1)).2 0 "k" PyVal.null 1).2 5 "s" "k" "u" (by decide)).2.1
     ⟨PyVal.null, 0, some 1, 0, 0⟩ 1 (by decide) rfl (by decide),
   (expired_rows_absent_for_reads (setCache (saveSession DB.empty 0 "s" "u" []
      (some 1)).2 0 "k" PyVal.null 1).2 5 "s" "k" "u" (by decide)).2.2.2.1⟩

/-! ## Claim C5 -/

/-- C5 counterexample: `clear_cache` builds `LIKE '%' || pattern || '%'`,
where `_` matches any single character and ASCII letters compare
case-insensitively — not literal substring containment.
`clear_cache("_")` deletes the row with key `"ab"` (and returns count 1)
although `"ab"` does not contain `"_"`, and `clear_cache("foo")` deletes
the key `"FOO"` although `"FOO"` does not contain `"foo"`. -/
theorem clear_cache_pattern_counterexample :
    (clearCache (setCache DB.empty 0 "ab" (PyVal.int 1) 10).2 (some "_")).1 = 1
    ∧ assocFind ((clearCache (setCache DB.empty 0 "ab" (PyVal.int 1) 10).2
        (some "_")).2).cache "ab" = none
    ∧ containsSub "ab".data "_".data = false
    ∧ (clearCache (setCache DB.empty 0 "FOO" (PyVal.int 1) 10).2 (some "foo")).1 = 1
    ∧ containsSub "FOO".data "foo".data = false := by
  decide

/-- C5 (amended): `clear_cache(pattern)` removes exactly the cache rows
whose key matches the SQL `LIKE` pattern `%pattern%` — for a pattern free
of the wildcard characters `%` and `_`, exactly the keys containing the
pattern as a substring up to ASCII case — and returns the number of rows
removed; keys not matched remain present (hence readable) afterward, and
`clear_cache` with no pattern removes all cache rows and returns their
count. -/
theorem clear_cache_pattern_clear (db : DB) (p key : String)
    (hw : noWild p.data = true) :
    (∀ row : CacheRow,
      assocFind ((clearCache db (some p)).2).cache key = some row ↔
        (assocFind db.cache key = some row ∧
          containsSub (lowerL key.data) (lowerL p.data) = false))
    ∧ (clearCache db (some p)).1
        = (db.cache.filter
            (fun kv => containsSub (lowerL kv.1.data) (lowerL p.data))).length
    ∧ clearCache db none = (db.cache.length, { db with cache := [] }) := by
  have hsub : ∀ s : String, likeMatch ('%' :: (p.data ++ ['%'])) s.data
      = containsSub (lowerL s.data) (lowerL p.data) :=
    fun s => likeMatch_noWild_contains p.data hw s.data
  by_cases hpe : p.data.isEmpty = true
  · have hnil : p.data = [] := by
      cases hd : p.data with
      | nil => rfl
      | cons c t => rw [hd] at hpe; simp [List.isEmpty] at hpe
    have hsubT : ∀ s : String,
        containsSub (lowerL s.data) (lowerL p.data) = true := by
      intro s
      rw [hnil]
      exact containsSub_nil_pat _
    refine ⟨?_, ?_, ?_⟩
    · intro row
      simp [clearCache, hpe, assocFind, hsubT key]
    · have hfilter : db.cache.filter
          (fun kv => containsSub (lowerL kv.1.data) (lowerL p.data)) = db.cache := by
        have hT : (fun kv : String × CacheRow =>
            containsSub (lowerL kv.1.data) (lowerL p.data)) = fun _ => true :=
          funext fun kv => hsubT kv.1
        rw [hT, List.filter_true]
      simp [clearCache, hpe, hfilter]
    · simp [clearCache]
  · have hpe' : p.data.isEmpty = false := by simpa using hpe
    refine ⟨?_, ?_, ?_⟩
    · intro row
      have hkey := assocFind_filterKey db.cache key
        (fun s => !(likeMatch ('%' :: (p.data ++ ['%'])) s.data))
      simp only [clearCache, hpe', Bool.false_eq_true, if_false]
      rw [hkey]
      by_cases hc : containsSub (lowerL key.data) (lowerL p.data) = true
      · have hb : (!(likeMatch ('%' :: (p.data ++ ['%'])) key.data)) = false := by
          rw [hsub key, hc]
          rfl
        rw [hb]
        simp [hc]
      · have hc' : containsSub (lowerL key.data) (lowerL p.data) = false := by
          simpa using hc
        have hb : (!(likeMatch ('%' :: (p.data ++ ['%'])) key.data)) = true := by
          rw [hsub key, hc']
          rfl
        rw [hb]
        simp [hc']
    · have hT : (fun kv : String × CacheRow =>
          likeMatch ('%' :: (p.data ++ ['%'])) kv.1.data)
          = fun kv => containsSub (lowerL kv.1.data) (lowerL p.data) :=
        funext fun kv => hsub kv.1
      simp only [clearCache, hpe', Bool.false_eq_true, if_false]
      rw [hT]
    · simp [clearCache]

/-- Witness for C5 (amended) at a concrete store: clearing pattern "a"
removes key "ab" (count 1) and keeps key "xy", which stays readable. -/
theorem clear_cache_pattern_clear_witness :
    noWild "a".data = true ∧
    (clearCache (setCache (setCache DB.empty 0 "ab" (PyVal.int 1) 10).2
        0 "xy" (PyVal.int 2) 10).2 (some "a")).1 = 1 ∧
    assocFind ((clearCache (setCache (setCache DB.empty 0 "ab" (PyVal.int 1) 10).2
        0 "xy" (PyVal.int 2) 10).2 (some "a")).2).cache "xy"
      = some ⟨PyVal.int 2, 0, some 10, 0, 0⟩ :=
  ⟨by decide,
   by
    rw [(clear_cache_pattern_clear (setCache (setCache DB.empty 0 "ab"
      (PyVal.int 1) 10).2 0 "xy" (PyVal.int 2) 10).2 "a" "xy" (by decide)).2.1]
    decide,
   ((clear_cache_pattern_clear (setCache (setCache DB.empty 0 "ab"
      (PyVal.int 1) 10).2 0 "xy" (PyVal.int 2) 10).2 "a" "xy" (by decide)).1
      ⟨PyVal.int 2, 0, some 10, 0, 0⟩).mpr ⟨by decide, by decide⟩⟩

end DXMatrix
